import Mathlib

/-!
Shallow embedding of the order-tracker backend
(src/backend/in_memory_storage.py and src/backend/order_tracker.py)
and verification of its specified properties.

Python values are dynamically typed, and the tracker performs isinstance
and truthiness checks on its arguments, so inputs are embedded as the
inductive type PyVal. The storage dictionary is embedded as an
insertion-ordered association list with Python-dict semantics
(assignment to a present key updates in place, assignment to an absent
key appends at the end). Python exceptions ValueError and KeyError are
embedded as an error type Err returned through Except; each ValueError
constructor corresponds to one distinct raise site / message in the
source. Methods that can mutate the tracker return the resulting
tracker state alongside the Except result; every raise in the source
happens before any mutation, so on error the state is returned
unchanged, exactly as in the source.
-/

/-- PyVal embeds the Python values the order tracker manipulates:
None, booleans, integers, strings, lists, and string-keyed dicts. -/
inductive PyVal where
  | none
  | bool (b : Bool)
  | int (n : Int)
  | str (s : String)
  | list (elems : List PyVal)
  | dict (entries : List (String × PyVal))

/-- truthy v embeds Python truthiness (bool(v)): None, False, 0, the
empty string, the empty list and the empty dict are falsy. -/
def truthy : PyVal → Bool
  | .none => false
  | .bool b => b
  | .int n => n != 0
  | .str s => !s.isEmpty
  | .list xs => !xs.isEmpty
  | .dict es => !es.isEmpty

/-- isStr v embeds isinstance(v, str). -/
def isStr : PyVal → Bool
  | .str _ => true
  | _ => false

/-- isList v embeds isinstance(v, list). -/
def isList : PyVal → Bool
  | .list _ => true
  | _ => false

/-- isDict v embeds isinstance(v, dict). -/
def isDict : PyVal → Bool
  | .dict _ => true
  | _ => false

/-- isPyInt v embeds isinstance(v, int); in Python bool is a subclass
of int, so booleans count as integers. -/
def isPyInt : PyVal → Bool
  | .int _ => true
  | .bool _ => true
  | _ => false

/-- pyIntVal v is the integer value of a Python int (True counts as 1,
False as 0); 0 on the other constructors, where it is never used. -/
def pyIntVal : PyVal → Int
  | .int n => n
  | .bool b => if b then 1 else 0
  | _ => 0

/-- strVal v is the underlying string of a PyVal.str; the empty string
on the other constructors, where it is never used. -/
def strVal : PyVal → String
  | .str s => s
  | _ => ""

/-- listElems v is the element list of a PyVal.list; the empty list on
the other constructors, where it is never used. -/
def listElems : PyVal → List PyVal
  | .list xs => xs
  | _ => []

/-- assocGet d k embeds Python dict lookup d.get(k): the value at the
first occurrence of key k, if any. -/
def assocGet {α : Type} : List (String × α) → String → Option α
  | [], _ => Option.none
  | (k₁, v₁) :: rest, k => if k₁ = k then some v₁ else assocGet rest k

/-- assocSet d k v embeds Python dict assignment d[k] = v: if k is
present its value is replaced in place, otherwise (k, v) is appended
at the end, preserving insertion order. -/
def assocSet {α : Type} : List (String × α) → String → α → List (String × α)
  | [], k, v => [(k, v)]
  | (k₁, v₁) :: rest, k, v =>
    if k₁ = k then (k, v) :: rest else (k₁, v₁) :: assocSet rest k v

/-- assocPop d k embeds Python d.pop(k, None): the removed value (or
none) together with the remaining entries. -/
def assocPop {α : Type} : List (String × α) → String → Option α × List (String × α)
  | [], _ => (Option.none, [])
  | (k₁, v₁) :: rest, k =>
    if k₁ = k then (some v₁, rest)
    else
      let r := assocPop rest k
      (r.1, (k₁, v₁) :: r.2)

/-- pyDictGet v k looks key k up in a PyVal dict (none on non-dicts,
which the tracker never reaches). -/
def pyDictGet (v : PyVal) (k : String) : Option PyVal :=
  match v with
  | .dict es => assocGet es k
  | _ => Option.none

/-- pyDictSet v k x embeds the Python dict item assignment v[k] = x
(identity on non-dicts, which the tracker never reaches). -/
def pyDictSet (v : PyVal) (k : String) (x : PyVal) : PyVal :=
  match v with
  | .dict es => .dict (assocSet es k x)
  | w => w

/-- InMemoryStorage embeds the class of the same name: a single
dictionary mapping order identifier to order record. -/
structure InMemoryStorage where
  _orders : List (String × PyVal)

/-- save embeds InMemoryStorage.save: unconditional upsert. -/
def InMemoryStorage.save (s : InMemoryStorage) (order_id : String)
    (order_data : PyVal) : InMemoryStorage :=
  ⟨assocSet s._orders order_id order_data⟩

/-- get embeds InMemoryStorage.get: the record or None. -/
def InMemoryStorage.get (s : InMemoryStorage) (order_id : String) : Option PyVal :=
  assocGet s._orders order_id

/-- get_all embeds InMemoryStorage.get_all: list(self._orders.values()). -/
def InMemoryStorage.get_all (s : InMemoryStorage) : List PyVal :=
  s._orders.map Prod.snd

/-- existsKey embeds InMemoryStorage.exists (exists is a reserved word
in Lean): membership test on the dictionary. -/
def InMemoryStorage.existsKey (s : InMemoryStorage) (order_id : String) : Bool :=
  (assocGet s._orders order_id).isSome

/-- delete embeds InMemoryStorage.delete: self._orders.pop(order_id, None),
returning the removed record (or None) and the new storage state. -/
def InMemoryStorage.delete (s : InMemoryStorage) (order_id : String) :
    Option PyVal × InMemoryStorage :=
  let r := assocPop s._orders order_id
  (r.1, ⟨r.2⟩)

/-- clear embeds InMemoryStorage.clear. -/
def InMemoryStorage.clear (_s : InMemoryStorage) : InMemoryStorage :=
  ⟨[]⟩

/-- VALID_STATUSES embeds the module-level constant of the same name. -/
def VALID_STATUSES : List String := ["pending", "shipped", "delivered", "cancelled"]

/-- inValidStatuses v embeds the Python membership test
v in VALID_STATUSES: only equal strings are members of the set. -/
def inValidStatuses : PyVal → Bool
  | .str s => decide (s ∈ VALID_STATUSES)
  | _ => false

/-- Err embeds the exceptions the tracker raises. Each val constructor
is one distinct ValueError raise site / message of order_tracker.py;
notFound is the KeyError. -/
inductive Err where
  /-- Message: Order ID is required and must be a non-empty string. (add_order) -/
  | valOrderIdRequired
  /-- Message: Customer ID is required and must be a non-empty string. -/
  | valCustomerIdRequired
  /-- Message: Items must be a non-empty list. -/
  | valItemsList
  /-- Message: Each item must be a dictionary. -/
  | valItemDict
  /-- Message: Each item must have name and quantity fields. -/
  | valItemFields
  /-- Message: Item quantity must be a positive integer. -/
  | valItemQuantity
  /-- Message: Order with ID (order_id) already exists. -/
  | valDuplicate (order_id : String)
  /-- Message: Order ID must be a non-empty string. (get_order_by_id, update_order_status) -/
  | valOrderIdEmpty
  /-- Message: Invalid status. Must be one of the valid statuses. -/
  | valInvalidStatus
  /-- KeyError: Order with ID (order_id) not found. -/
  | notFound (order_id : String)
deriving DecidableEq

/-- isValidation e is true exactly when e embeds a ValueError
(a validation error); false for the KeyError (not-found error). -/
def Err.isValidation : Err → Bool
  | .notFound _ => false
  | _ => true

/-- checkItem item embeds one iteration of the item-validation loop in
add_order: dictionary check, then presence of the name and quantity
fields, then quantity a positive integer; the first failing check
yields its error. -/
def checkItem (item : PyVal) : Option Err :=
  match item with
  | .dict es =>
    match assocGet es "name", assocGet es "quantity" with
    | some _, some q =>
      if !(isPyInt q) || pyIntVal q ≤ 0 then some Err.valItemQuantity else Option.none
    | _, _ => some Err.valItemFields
  | _ => some Err.valItemDict

/-- checkItems items embeds the for-loop of add_order over the items
list: the error of the first offending item, if any. -/
def checkItems : List PyVal → Option Err
  | [] => Option.none
  | item :: rest =>
    match checkItem item with
    | some e => some e
    | Option.none => checkItems rest

/-- OrderTracker embeds the class of the same name; its only state is
the storage backend. -/
structure OrderTracker where
  storage : InMemoryStorage

/-- add_order embeds OrderTracker.add_order: the four validation
stages in source order (order id, customer id, items, duplicate id),
then construction of the record with status pending and save. -/
def OrderTracker.add_order (t : OrderTracker) (order_id items customer_id : PyVal) :
    Except Err PyVal × OrderTracker :=
  if !(truthy order_id) || !(isStr order_id) then
    (Except.error Err.valOrderIdRequired, t)
  else if !(truthy customer_id) || !(isStr customer_id) then
    (Except.error Err.valCustomerIdRequired, t)
  else if !(truthy items) || !(isList items) then
    (Except.error Err.valItemsList, t)
  else
    match checkItems (listElems items) with
    | some e => (Except.error e, t)
    | Option.none =>
      let oid := strVal order_id
      if t.storage.existsKey oid then
        (Except.error (Err.valDuplicate oid), t)
      else
        let order : PyVal := PyVal.dict
          [("order_id", order_id), ("items", items),
           ("customer_id", customer_id), ("status", PyVal.str "pending")]
        (Except.ok order, ⟨t.storage.save oid order⟩)

/-- get_order_by_id embeds OrderTracker.get_order_by_id. -/
def OrderTracker.get_order_by_id (t : OrderTracker) (order_id : PyVal) :
    Except Err PyVal × OrderTracker :=
  if !(truthy order_id) || !(isStr order_id) then
    (Except.error Err.valOrderIdEmpty, t)
  else
    match t.storage.get (strVal order_id) with
    | Option.none => (Except.error (Err.notFound (strVal order_id)), t)
    | some order => (Except.ok order, t)

/-- update_order_status embeds OrderTracker.update_order_status:
order-id check, status-vocabulary check, lookup, then in-place status
mutation and save. -/
def OrderTracker.update_order_status (t : OrderTracker) (order_id new_status : PyVal) :
    Except Err PyVal × OrderTracker :=
  if !(truthy order_id) || !(isStr order_id) then
    (Except.error Err.valOrderIdEmpty, t)
  else if !(inValidStatuses new_status) then
    (Except.error Err.valInvalidStatus, t)
  else
    match t.storage.get (strVal order_id) with
    | Option.none => (Except.error (Err.notFound (strVal order_id)), t)
    | some order =>
      let updated := pyDictSet order "status" new_status
      (Except.ok updated, ⟨t.storage.save (strVal order_id) updated⟩)

/-- list_all_orders embeds OrderTracker.list_all_orders. -/
def OrderTracker.list_all_orders (t : OrderTracker) : List PyVal :=
  t.storage.get_all

/-- statusMatches order status embeds the filter predicate
order["status"] == status of list_orders_by_status, for status the
string that passed the vocabulary check (Python equality of a dict
value with a string holds only for the equal string). -/
def statusMatches (order : PyVal) (status : String) : Bool :=
  match pyDictGet order "status" with
  | some (.str s) => s = status
  | _ => false

/-- list_orders_by_status embeds OrderTracker.list_orders_by_status:
vocabulary check then comprehension filtering get_all on status. -/
def OrderTracker.list_orders_by_status (t : OrderTracker) (status : PyVal) :
    Except Err (List PyVal) × OrderTracker :=
  if !(inValidStatuses status) then
    (Except.error Err.valInvalidStatus, t)
  else
    (Except.ok (t.storage.get_all.filter fun order => statusMatches order (strVal status)), t)

/-- Reachable t holds when tracker state t arises from the initial
empty store by some sequence of the state-changing operations: order
creation, status update, storage-level delete (used by the HTTP
delete endpoint), and clear. The read-only operations (get_order_by_id,
list_all_orders, list_orders_by_status) return the state unchanged. -/
inductive Reachable : OrderTracker → Prop where
  | init : Reachable ⟨⟨[]⟩⟩
  | add (t : OrderTracker) (order_id items customer_id : PyVal) :
      Reachable t → Reachable (t.add_order order_id items customer_id).2
  | update (t : OrderTracker) (order_id new_status : PyVal) :
      Reachable t → Reachable (t.update_order_status order_id new_status).2
  | delete (t : OrderTracker) (order_id : String) :
      Reachable t → Reachable ⟨(t.storage.delete order_id).2⟩
  | clear (t : OrderTracker) : Reachable t → Reachable ⟨t.storage.clear⟩

/-- goodRecord k r says the stored value r under key k is a dict with
exactly the four order fields in construction order, whose order_id
field is the string k and whose status field is a string of the fixed
vocabulary. -/
def goodRecord (k : String) (r : PyVal) : Prop :=
  ∃ es, r = PyVal.dict es ∧
    es.map Prod.fst = ["order_id", "items", "customer_id", "status"] ∧
    assocGet es "order_id" = some (PyVal.str k) ∧
    ∃ st, assocGet es "status" = some (PyVal.str st) ∧ st ∈ VALID_STATUSES

/-- StoreInv s is the storage invariant: keys are distinct (as in a
Python dict), every key is a non-empty string, and every stored record
satisfies goodRecord for its key. -/
def StoreInv (s : InMemoryStorage) : Prop :=
  (s._orders.map Prod.fst).Nodup ∧
  ∀ k r, (k, r) ∈ s._orders → k ≠ "" ∧ goodRecord k r

/-- sameOffStatus r r₂ says records r and r₂ agree on every field other
than status. -/
def sameOffStatus (r r₂ : PyVal) : Prop :=
  ∀ k, k ≠ "status" → pyDictGet r₂ k = pyDictGet r k

/-- identityFields r lists the three creation-time fields of record r
other than status: identifier, items, customer identifier. -/
def identityFields (r : PyVal) : Option PyVal × Option PyVal × Option PyVal :=
  (pyDictGet r "order_id", pyDictGet r "items", pyDictGet r "customer_id")

/-- specNonEmptyString v formalises, from the words of the claim, the
rule that a value is a non-empty string. -/
def specNonEmptyString (v : PyVal) : Bool :=
  match v with
  | .str s => !s.isEmpty
  | _ => false

/-- specItemOk item formalises, from the words of the claim, that an
item has both a name field and a quantity field with the quantity a
positive (Python) integer. -/
def specItemOk (item : PyVal) : Bool :=
  match item with
  | .dict es =>
    (assocGet es "name").isSome &&
      (match assocGet es "quantity" with
       | some q => isPyInt q && 0 < pyIntVal q
       | _ => false)
  | _ => false

/-- specItemsOk items formalises, from the words of the claim, that
items is a non-empty list every element of which satisfies specItemOk. -/
def specItemsOk (items : PyVal) : Bool :=
  match items with
  | .list xs => !xs.isEmpty && xs.all specItemOk
  | _ => false

/-- specFirstViolation formalises, from the words of the claim, the
first violated rule of add_order in the claimed order: 1 identifier
non-empty string, 2 customer identifier non-empty string, 3 items a
non-empty list of well-formed items, 4 identifier not already present;
none when all four rules hold. -/
def specFirstViolation (t : OrderTracker) (order_id items customer_id : PyVal) :
    Option Nat :=
  if !(specNonEmptyString order_id) then some 1
  else if !(specNonEmptyString customer_id) then some 2
  else if !(specItemsOk items) then some 3
  else if t.storage.existsKey (strVal order_id) then some 4
  else Option.none

/-- item1 is the sample item of the spec scenario: name Widget,
quantity 2. -/
def item1 : PyVal := PyVal.dict [("name", PyVal.str "Widget"), ("quantity", PyVal.int 2)]

/-- tracker0 is the freshly initialised tracker over an empty store. -/
def tracker0 : OrderTracker := ⟨⟨[]⟩⟩

/-- tracker1 is tracker0 after creating order ORD001 for CUST001. -/
def tracker1 : OrderTracker :=
  (tracker0.add_order (PyVal.str "ORD001") (PyVal.list [item1]) (PyVal.str "CUST001")).2

/-- rec1 is the record add_order constructs for the spec scenario. -/
def rec1 : PyVal := PyVal.dict
  [("order_id", PyVal.str "ORD001"), ("items", PyVal.list [item1]),
   ("customer_id", PyVal.str "CUST001"), ("status", PyVal.str "pending")]

/-- rec1s is rec1 after its status is updated to shipped. -/
def rec1s : PyVal := PyVal.dict
  [("order_id", PyVal.str "ORD001"), ("items", PyVal.list [item1]),
   ("customer_id", PyVal.str "CUST001"), ("status", PyVal.str "shipped")]

/-! Lemmas on the association-list embedding of Python dicts. -/

theorem assocGet_assocSet_self {α : Type} (d : List (String × α)) (k : String) (v : α) :
    assocGet (assocSet d k v) k = some v := by
  induction d with
  | nil => simp [assocSet, assocGet]
  | cons hd tl ih =>
    obtain ⟨k₁, v₁⟩ := hd
    by_cases h : k₁ = k
    · simp [assocSet, assocGet, h]
    · simp [assocSet, assocGet, h, ih]

theorem assocGet_assocSet_ne {α : Type} (d : List (String × α)) {k k' : String} (v : α)
    (h : k' ≠ k) : assocGet (assocSet d k v) k' = assocGet d k' := by
  induction d with
  | nil => simp [assocSet, assocGet, Ne.symm h]
  | cons hd tl ih =>
    obtain ⟨k₁, v₁⟩ := hd
    by_cases h₁ : k₁ = k
    · subst h₁
      simp [assocSet, assocGet, Ne.symm h]
    · simp [assocSet, assocGet, h₁, ih]

theorem mem_assocSet {α : Type} {d : List (String × α)} {k k' : String} {v v' : α}
    (h : (k', v') ∈ assocSet d k v) : (k' = k ∧ v' = v) ∨ (k', v') ∈ d := by
  induction d with
  | nil =>
    simp [assocSet] at h
    exact Or.inl h
  | cons hd tl ih =>
    obtain ⟨k₁, v₁⟩ := hd
    by_cases h₁ : k₁ = k
    · simp [assocSet, h₁] at h
      rcases h with h | h
      · exact Or.inl h
      · exact Or.inr (List.mem_cons_of_mem _ h)
    · simp [assocSet, h₁] at h
      rcases h with h | h
      · exact Or.inr (by simp [h])
      · rcases ih h with h' | h'
        · exact Or.inl h'
        · exact Or.inr (List.mem_cons_of_mem _ h')

theorem assocGet_mem {α : Type} {d : List (String × α)} {k : String} {v : α}
    (h : assocGet d k = some v) : (k, v) ∈ d := by
  induction d with
  | nil => simp [assocGet] at h
  | cons hd tl ih =>
    obtain ⟨k₁, v₁⟩ := hd
    by_cases h₁ : k₁ = k
    · simp [assocGet, h₁] at h
      simp [h₁, h]
    · simp [assocGet, h₁] at h
      exact List.mem_cons_of_mem _ (ih h)

theorem keys_assocSet_present {α : Type} {d : List (String × α)} {k : String} (v : α)
    (h : (assocGet d k).isSome) :
    (assocSet d k v).map Prod.fst = d.map Prod.fst := by
  induction d with
  | nil => simp [assocGet] at h
  | cons hd tl ih =>
    obtain ⟨k₁, v₁⟩ := hd
    by_cases h₁ : k₁ = k
    · simp [assocSet, h₁]
    · simp [assocGet, h₁] at h
      simp [assocSet, h₁, ih h]

theorem keys_assocSet_absent {α : Type} {d : List (String × α)} {k : String} (v : α)
    (h : assocGet d k = Option.none) :
    (assocSet d k v).map Prod.fst = d.map Prod.fst ++ [k] := by
  induction d with
  | nil => simp [assocSet]
  | cons hd tl ih =>
    obtain ⟨k₁, v₁⟩ := hd
    by_cases h₁ : k₁ = k
    · simp [assocGet, h₁] at h
    · simp [assocGet, h₁] at h
      simp [assocSet, h₁, ih h]

theorem assocGet_eq_none_not_mem {α : Type} {d : List (String × α)} {k : String}
    (h : assocGet d k = Option.none) (v : α) : (k, v) ∉ d := by
  induction d with
  | nil => simp
  | cons hd tl ih =>
    obtain ⟨k₁, v₁⟩ := hd
    by_cases h₁ : k₁ = k
    · simp [assocGet, h₁] at h
    · simp [assocGet, h₁] at h
      intro hmem
      rcases List.mem_cons.mp hmem with hh | hh
      · simp at hh
        exact h₁ hh.1.symm
      · exact ih h hh

theorem keys_assocSet_nodup {α : Type} {d : List (String × α)} {k : String} (v : α)
    (h : (d.map Prod.fst).Nodup) :
    ((assocSet d k v).map Prod.fst).Nodup := by
  cases hk : assocGet d k with
  | none =>
    rw [keys_assocSet_absent v hk]
    refine List.Nodup.append h (List.nodup_singleton k) ?_
    intro a ha hb
    simp at hb
    subst hb
    rcases List.mem_map.mp ha with ⟨⟨k₁, v₁⟩, hmem, hfst⟩
    simp at hfst
    exact assocGet_eq_none_not_mem hk v₁ (hfst ▸ hmem)
  | some w =>
    rw [keys_assocSet_present v (by simp [hk])]
    exact h

theorem assocPop_fst {α : Type} (d : List (String × α)) (k : String) :
    (assocPop d k).1 = assocGet d k := by
  induction d with
  | nil => simp [assocPop, assocGet]
  | cons hd tl ih =>
    obtain ⟨k₁, v₁⟩ := hd
    by_cases h₁ : k₁ = k
    · simp [assocPop, assocGet, h₁]
    · simp [assocPop, assocGet, h₁, ih]

theorem assocPop_absent {α : Type} {d : List (String × α)} {k : String}
    (h : assocGet d k = Option.none) : assocPop d k = (Option.none, d) := by
  induction d with
  | nil => simp [assocPop]
  | cons hd tl ih =>
    obtain ⟨k₁, v₁⟩ := hd
    by_cases h₁ : k₁ = k
    · simp [assocGet, h₁] at h
    · simp [assocGet, h₁] at h
      simp [assocPop, h₁, ih h]

theorem assocPop_snd_sublist {α : Type} (d : List (String × α)) (k : String) :
    (assocPop d k).2.Sublist d := by
  induction d with
  | nil => simp [assocPop]
  | cons hd tl ih =>
    obtain ⟨k₁, v₁⟩ := hd
    by_cases h₁ : k₁ = k
    · simp [assocPop, h₁]
    · simp only [assocPop, h₁, if_false]
      exact List.Sublist.cons₂ _ ih

theorem assocGet_eq_none_of_not_mem_keys {α : Type} {d : List (String × α)} {k : String}
    (h : k ∉ d.map Prod.fst) : assocGet d k = Option.none := by
  induction d with
  | nil => simp [assocGet]
  | cons hd tl ih =>
    obtain ⟨k₁, v₁⟩ := hd
    simp at h
    simp [assocGet, fun hh : k₁ = k => h.1 hh.symm, ih (by simpa using h.2)]
    intro hh
    exact absurd hh.symm h.1

theorem assocGet_assocPop_ne {α : Type} (d : List (String × α)) {k k' : String}
    (h : k' ≠ k) : assocGet (assocPop d k).2 k' = assocGet d k' := by
  induction d with
  | nil => simp [assocPop]
  | cons hd tl ih =>
    obtain ⟨k₁, v₁⟩ := hd
    by_cases h₁ : k₁ = k
    · subst h₁
      simp [assocPop, assocGet, Ne.symm h]
    · simp [assocPop, assocGet, h₁, ih]

theorem assocGet_assocPop_self {α : Type} {d : List (String × α)} {k : String}
    (h : (d.map Prod.fst).Nodup) : assocGet (assocPop d k).2 k = Option.none := by
  induction d with
  | nil => simp [assocPop, assocGet]
  | cons hd tl ih =>
    obtain ⟨k₁, v₁⟩ := hd
    rw [List.map_cons, List.nodup_cons] at h
    by_cases h₁ : k₁ = k
    · subst h₁
      simpa [assocPop] using assocGet_eq_none_of_not_mem_keys h.1
    · simp [assocPop, assocGet, h₁, ih h.2]

theorem keys_assocPop_nodup {α : Type} {d : List (String × α)} {k : String}
    (h : (d.map Prod.fst).Nodup) : ((assocPop d k).2.map Prod.fst).Nodup :=
  ((assocPop_snd_sublist d k).map Prod.fst).nodup h

/-! Bridging lemmas relating the spec-side rules of claim C3 to the
checks the code performs. -/

theorem specNonEmptyString_eq (v : PyVal) :
    specNonEmptyString v = (truthy v && isStr v) := by
  cases v <;> simp [specNonEmptyString, truthy, isStr]

theorem checkItem_eq_none_iff (item : PyVal) :
    checkItem item = Option.none ↔ specItemOk item = true := by
  cases item with
  | dict es =>
    simp only [checkItem, specItemOk]
    cases hn : assocGet es "name" with
    | none => simp
    | some nv =>
      cases hq : assocGet es "quantity" with
      | none => simp
      | some q =>
        rcases q with _ | b | n | s | xs | es₂
        · simp [isPyInt]
        · cases b <;> simp [isPyInt, pyIntVal]
        · by_cases h : n ≤ 0
          · simp [isPyInt, pyIntVal, h, show ¬(0 : Int) < n by omega]
          · simp [isPyInt, pyIntVal, h, show (0 : Int) < n by omega]
        · simp [isPyInt]
        · simp [isPyInt]
        · simp [isPyInt]
  | none => simp [checkItem, specItemOk]
  | bool b => simp [checkItem, specItemOk]
  | int n => simp [checkItem, specItemOk]
  | str s => simp [checkItem, specItemOk]
  | list xs => simp [checkItem, specItemOk]

theorem checkItems_eq_none_iff (xs : List PyVal) :
    checkItems xs = Option.none ↔ ∀ it ∈ xs, specItemOk it = true := by
  induction xs with
  | nil => simp [checkItems]
  | cons x rest ih =>
    simp only [checkItems]
    cases hx : checkItem x with
    | some e =>
      have hxbad : ¬ specItemOk x = true := by
        intro hh
        rw [← checkItem_eq_none_iff] at hh
        rw [hx] at hh
        cases hh
      simp [hxbad]
    | none =>
      have hxok := (checkItem_eq_none_iff x).mp hx
      simp [ih, hxok]

theorem specItemsOk_iff (items : PyVal) :
    specItemsOk items = true ↔
      (truthy items && isList items) = true ∧ checkItems (listElems items) = Option.none := by
  cases items <;>
    simp [specItemsOk, truthy, isList, listElems, checkItems, checkItems_eq_none_iff,
      List.all_eq_true]

theorem inValidStatuses_str_iff (s : String) :
    inValidStatuses (PyVal.str s) = true ↔ s ∈ VALID_STATUSES := by
  simp [inValidStatuses]

/-! Case-analysis helpers for the state-changing operations, and the
storage invariant along reachable states. -/

theorem truthyStr_of {v : PyVal} (h : (!truthy v || !isStr v) = false) :
    ∃ s, v = PyVal.str s ∧ s ≠ "" := by
  cases v <;> simp [truthy, isStr] at h
  case str s =>
    refine ⟨s, rfl, fun he => ?_⟩
    rw [he] at h
    exact absurd h (by decide)

theorem notTruthyStr_of {s : String} (h : s ≠ "") :
    (!truthy (PyVal.str s) || !isStr (PyVal.str s)) = false := by
  cases hb : s.isEmpty with
  | false => simp [truthy, isStr, hb]
  | true => exact absurd ((String.isEmpty_iff s).mp hb) h

theorem existsKey_false_iff (s : InMemoryStorage) (k : String) :
    s.existsKey k = false ↔ s.get k = Option.none := by
  simp only [InMemoryStorage.existsKey, InMemoryStorage.get]
  cases assocGet s._orders k <;> simp

theorem inValidStatuses_elim {v : PyVal} (h : inValidStatuses v = true) :
    ∃ st, v = PyVal.str st ∧ st ∈ VALID_STATUSES := by
  cases v <;> simp [inValidStatuses] at h
  case str s => exact ⟨s, rfl, h⟩

theorem add_order_snd_cases (t : OrderTracker) (order_id items customer_id : PyVal) :
    (t.add_order order_id items customer_id).2 = t ∨
    (∃ oid, order_id = PyVal.str oid ∧ oid ≠ "" ∧
      t.storage.get oid = Option.none ∧
      (t.add_order order_id items customer_id).2 =
        ⟨t.storage.save oid (PyVal.dict
          [("order_id", order_id), ("items", items),
           ("customer_id", customer_id), ("status", PyVal.str "pending")])⟩) := by
  by_cases h1 : (!truthy order_id || !isStr order_id) = true
  · left
    simp [OrderTracker.add_order, h1]
  · rw [Bool.not_eq_true] at h1
    by_cases h2 : (!truthy customer_id || !isStr customer_id) = true
    · left
      simp [OrderTracker.add_order, h1, h2]
    · rw [Bool.not_eq_true] at h2
      by_cases h3 : (!truthy items || !isList items) = true
      · left
        simp [OrderTracker.add_order, h1, h2, h3]
      · rw [Bool.not_eq_true] at h3
        cases hc : checkItems (listElems items) with
        | some e =>
          left
          simp [OrderTracker.add_order, h1, h2, h3, hc]
        | none =>
          obtain ⟨oid, hoid, hne⟩ := truthyStr_of h1
          by_cases h4 : t.storage.existsKey (strVal order_id) = true
          · left
            simp [OrderTracker.add_order, h1, h2, h3, hc, h4]
          · rw [Bool.not_eq_true] at h4
            subst hoid
            rw [show strVal (PyVal.str oid) = oid from rfl] at h4
            right
            refine ⟨oid, rfl, hne, (existsKey_false_iff t.storage oid).mp h4, ?_⟩
            simp [OrderTracker.add_order, h1, h2, h3, hc, h4, strVal]

theorem update_snd_cases (t : OrderTracker) (order_id new_status : PyVal) :
    (t.update_order_status order_id new_status).2 = t ∨
    (∃ oid st r, order_id = PyVal.str oid ∧ oid ≠ "" ∧
      new_status = PyVal.str st ∧ st ∈ VALID_STATUSES ∧
      t.storage.get oid = some r ∧
      (t.update_order_status order_id new_status).2 =
        ⟨t.storage.save oid (pyDictSet r "status" new_status)⟩) := by
  by_cases h1 : (!truthy order_id || !isStr order_id) = true
  · left
    simp [OrderTracker.update_order_status, h1]
  · rw [Bool.not_eq_true] at h1
    by_cases h2 : inValidStatuses new_status = true
    · cases hg : t.storage.get (strVal order_id) with
      | none =>
        left
        simp [OrderTracker.update_order_status, h1, h2, hg]
      | some r =>
        obtain ⟨oid, hoid, hne⟩ := truthyStr_of h1
        obtain ⟨st, hst, hstmem⟩ := inValidStatuses_elim h2
        subst hoid
        rw [show strVal (PyVal.str oid) = oid from rfl] at hg
        right
        refine ⟨oid, st, r, rfl, hne, hst, hstmem, hg, ?_⟩
        simp [OrderTracker.update_order_status, h1, h2, hg, strVal]
    · left
      rw [Bool.not_eq_true] at h2
      simp [OrderTracker.update_order_status, h1, h2]

theorem storeInv_init : StoreInv ⟨[]⟩ := by
  constructor
  · simp
  · intro k r h
    simp at h

theorem storeInv_save {s : InMemoryStorage} {k : String} {r : PyVal}
    (hs : StoreInv s) (hk : k ≠ "") (hr : goodRecord k r) :
    StoreInv (s.save k r) := by
  obtain ⟨hnd, hmem⟩ := hs
  constructor
  · exact keys_assocSet_nodup r hnd
  · intro k' r' h
    rcases mem_assocSet h with ⟨hk', hr'⟩ | h'
    · subst hk'
      subst hr'
      exact ⟨hk, hr⟩
    · exact hmem k' r' h'

theorem goodRecord_setStatus {k : String} {r : PyVal} (h : goodRecord k r)
    {st : String} (hst : st ∈ VALID_STATUSES) :
    goodRecord k (pyDictSet r "status" (PyVal.str st)) := by
  obtain ⟨es, rfl, hkeys, hoid, st₀, hst₀, _⟩ := h
  refine ⟨assocSet es "status" (PyVal.str st), rfl, ?_, ?_, st, ?_, hst⟩
  · rw [keys_assocSet_present _ (by simp [hst₀])]
    exact hkeys
  · rw [assocGet_assocSet_ne es (PyVal.str st) (show "order_id" ≠ "status" by decide)]
    exact hoid
  · exact assocGet_assocSet_self es "status" (PyVal.str st)

theorem reachable_storeInv {t : OrderTracker} (h : Reachable t) : StoreInv t.storage := by
  induction h with
  | init => exact storeInv_init
  | add t₀ order_id items customer_id _ ih =>
    rcases add_order_snd_cases t₀ order_id items customer_id with
      he | ⟨oid, heq, hne, _habs, hsucc⟩
    · rw [he]
      exact ih
    · rw [hsucc]
      refine storeInv_save ih hne ⟨_, rfl, ?_, ?_, "pending", ?_, by decide⟩
      · rfl
      · rw [heq]
        rfl
      · rfl
  | update t₀ order_id new_status _ ih =>
    rcases update_snd_cases t₀ order_id new_status with
      he | ⟨oid, st, r, heq, hne, hsteq, hstmem, hget, hsucc⟩
    · rw [he]
      exact ih
    · rw [hsucc]
      have hmem := assocGet_mem hget
      obtain ⟨hk, hgood⟩ := ih.2 oid r hmem
      rw [hsteq]
      exact storeInv_save ih hne (goodRecord_setStatus hgood hstmem)
  | delete t₀ order_id _ ih =>
    constructor
    · exact keys_assocPop_nodup ih.1
    · intro k r h
      exact ih.2 k r ((assocPop_snd_sublist t₀.storage._orders order_id).subset h)
  | clear t₀ _ _ =>
    exact storeInv_init

/-! Result-shape helpers for the tracker operations. -/

theorem specNonEmptyString_elim {v : PyVal} (h : specNonEmptyString v = true) :
    ∃ s, v = PyVal.str s ∧ s ≠ "" := by
  cases v <;> simp [specNonEmptyString] at h
  case str s =>
    refine ⟨s, rfl, fun he => ?_⟩
    rw [he] at h
    exact absurd h (by decide)

theorem checkItem_mem {it : PyVal} {e : Err} (h : checkItem it = some e) :
    e = Err.valItemDict ∨ e = Err.valItemFields ∨ e = Err.valItemQuantity := by
  cases it with
  | dict es =>
    simp only [checkItem] at h
    cases hn : assocGet es "name" with
    | none =>
      rw [hn] at h
      simp at h
      exact Or.inr (Or.inl h.symm)
    | some nv =>
      cases hq : assocGet es "quantity" with
      | none =>
        rw [hn, hq] at h
        simp at h
        exact Or.inr (Or.inl h.symm)
      | some q =>
        rw [hn, hq] at h
        rcases ite_eq_iff.mp h with ⟨-, h₂⟩ | ⟨-, h₂⟩
        · simp at h₂
          exact Or.inr (Or.inr h₂.symm)
        · simp at h₂
  | none =>
    simp only [checkItem] at h
    simp at h
    exact Or.inl h.symm
  | bool b =>
    simp only [checkItem] at h
    simp at h
    exact Or.inl h.symm
  | int n =>
    simp only [checkItem] at h
    simp at h
    exact Or.inl h.symm
  | str s =>
    simp only [checkItem] at h
    simp at h
    exact Or.inl h.symm
  | list xs =>
    simp only [checkItem] at h
    simp at h
    exact Or.inl h.symm

theorem checkItems_mem {xs : List PyVal} {e : Err} (h : checkItems xs = some e) :
    e = Err.valItemDict ∨ e = Err.valItemFields ∨ e = Err.valItemQuantity := by
  induction xs with
  | nil => simp [checkItems] at h
  | cons x rest ih =>
    simp only [checkItems] at h
    cases hx : checkItem x with
    | some e₁ =>
      rw [hx] at h
      simp at h
      exact h ▸ checkItem_mem hx
    | none =>
      rw [hx] at h
      exact ih h

theorem add_order_err1 (t : OrderTracker) {order_id : PyVal} (items customer_id : PyVal)
    (h : (!truthy order_id || !isStr order_id) = true) :
    t.add_order order_id items customer_id = (Except.error Err.valOrderIdRequired, t) := by
  simp [OrderTracker.add_order, h]

theorem add_order_err2 (t : OrderTracker) {order_id customer_id : PyVal} (items : PyVal)
    (h1 : (!truthy order_id || !isStr order_id) = false)
    (h2 : (!truthy customer_id || !isStr customer_id) = true) :
    t.add_order order_id items customer_id = (Except.error Err.valCustomerIdRequired, t) := by
  simp [OrderTracker.add_order, h1, h2]

theorem add_order_err3 (t : OrderTracker) {order_id items customer_id : PyVal}
    (h1 : (!truthy order_id || !isStr order_id) = false)
    (h2 : (!truthy customer_id || !isStr customer_id) = false)
    (h3 : (!truthy items || !isList items) = true) :
    t.add_order order_id items customer_id = (Except.error Err.valItemsList, t) := by
  simp [OrderTracker.add_order, h1, h2, h3]

theorem add_order_errItem (t : OrderTracker) {order_id items customer_id : PyVal} {e : Err}
    (h1 : (!truthy order_id || !isStr order_id) = false)
    (h2 : (!truthy customer_id || !isStr customer_id) = false)
    (h3 : (!truthy items || !isList items) = false)
    (hc : checkItems (listElems items) = some e) :
    t.add_order order_id items customer_id = (Except.error e, t) := by
  simp [OrderTracker.add_order, h1, h2, h3, hc]

theorem add_order_errDup (t : OrderTracker) {order_id items customer_id : PyVal}
    (h1 : (!truthy order_id || !isStr order_id) = false)
    (h2 : (!truthy customer_id || !isStr customer_id) = false)
    (h3 : (!truthy items || !isList items) = false)
    (hc : checkItems (listElems items) = Option.none)
    (h4 : t.storage.existsKey (strVal order_id) = true) :
    t.add_order order_id items customer_id =
      (Except.error (Err.valDuplicate (strVal order_id)), t) := by
  simp [OrderTracker.add_order, h1, h2, h3, hc, h4]

theorem add_order_of_checks_pass {t : OrderTracker} {oid cid : String} {items : PyVal}
    (hoid : oid ≠ "") (hcid : cid ≠ "")
    (h3 : (!truthy items || !isList items) = false)
    (hc : checkItems (listElems items) = Option.none)
    (habs : t.storage.get oid = Option.none) :
    t.add_order (PyVal.str oid) items (PyVal.str cid) =
      (Except.ok (PyVal.dict
        [("order_id", PyVal.str oid), ("items", items),
         ("customer_id", PyVal.str cid), ("status", PyVal.str "pending")]),
       ⟨t.storage.save oid (PyVal.dict
        [("order_id", PyVal.str oid), ("items", items),
         ("customer_id", PyVal.str cid), ("status", PyVal.str "pending")])⟩) := by
  have h4 : t.storage.existsKey oid = false := by
    simp only [InMemoryStorage.existsKey, InMemoryStorage.get] at *
    simp [habs]
  simp [OrderTracker.add_order, notTruthyStr_of hoid, notTruthyStr_of hcid, h3, hc, strVal, h4]

theorem add_order_ok {t : OrderTracker} {order_id items customer_id r : PyVal}
    {t₂ : OrderTracker}
    (h : t.add_order order_id items customer_id = (Except.ok r, t₂)) :
    r = PyVal.dict
      [("order_id", order_id), ("items", items),
       ("customer_id", customer_id), ("status", PyVal.str "pending")] ∧
    t.storage.get (strVal order_id) = Option.none ∧
    t₂ = ⟨t.storage.save (strVal order_id) r⟩ := by
  simp only [OrderTracker.add_order] at h
  split at h
  · simp at h
  · split at h
    · simp at h
    · split at h
      · simp at h
      · split at h
        · simp at h
        · split at h
          · simp at h
          · rename_i h4
            simp only [Prod.mk.injEq, Except.ok.injEq] at h
            obtain ⟨hr, ht⟩ := h
            refine ⟨hr.symm, ?_, by rw [← ht, hr]⟩
            rw [Bool.not_eq_true] at h4
            exact (existsKey_false_iff t.storage (strVal order_id)).mp h4

theorem get_order_by_id_empty (t : OrderTracker) :
    t.get_order_by_id (PyVal.str "") = (Except.error Err.valOrderIdEmpty, t) := by
  simp [OrderTracker.get_order_by_id, truthy, isStr,
    show ("" : String).isEmpty = true from rfl]

theorem get_order_by_id_eq (t : OrderTracker) {oid : String} (h : oid ≠ "") :
    t.get_order_by_id (PyVal.str oid) =
      (match t.storage.get oid with
       | Option.none => (Except.error (Err.notFound oid), t)
       | some order => (Except.ok order, t)) := by
  simp [OrderTracker.get_order_by_id, notTruthyStr_of h, strVal]

theorem update_eq (t : OrderTracker) {oid : String} (h : oid ≠ "") (new_status : PyVal) :
    t.update_order_status (PyVal.str oid) new_status =
      (if !(inValidStatuses new_status) then (Except.error Err.valInvalidStatus, t)
       else
        match t.storage.get oid with
        | Option.none => (Except.error (Err.notFound oid), t)
        | some order =>
          (Except.ok (pyDictSet order "status" new_status),
           ⟨t.storage.save oid (pyDictSet order "status" new_status)⟩)) := by
  simp only [OrderTracker.update_order_status, notTruthyStr_of h, Bool.false_eq_true,
    if_false, show strVal (PyVal.str oid) = oid from rfl]

theorem update_empty (t : OrderTracker) (new_status : PyVal) :
    t.update_order_status (PyVal.str "") new_status =
      (Except.error Err.valOrderIdEmpty, t) := by
  simp [OrderTracker.update_order_status, truthy, isStr,
    show ("" : String).isEmpty = true from rfl]

theorem update_ok {t : OrderTracker} {order_id new_status r₂ : PyVal} {t₂ : OrderTracker}
    (h : t.update_order_status order_id new_status = (Except.ok r₂, t₂)) :
    ∃ r, t.storage.get (strVal order_id) = some r ∧
      r₂ = pyDictSet r "status" new_status ∧
      t₂ = ⟨t.storage.save (strVal order_id) r₂⟩ := by
  simp only [OrderTracker.update_order_status] at h
  split at h
  · simp at h
  · split at h
    · simp at h
    · split at h
      · simp at h
      · rename_i r hr
        simp only [Prod.mk.injEq, Except.ok.injEq] at h
        obtain ⟨hr₂, ht⟩ := h
        exact ⟨r, hr, hr₂.symm, by rw [← ht, hr₂]⟩

theorem sameOffStatus_setStatus (r ns : PyVal) :
    sameOffStatus r (pyDictSet r "status" ns) := by
  intro k hk
  cases r <;> simp [pyDictSet, pyDictGet]
  case dict es => exact assocGet_assocSet_ne es ns hk

/-! Claim theorems. -/

/-- Claim C1: for every valid input (non-empty string identifier not
already present, non-empty string customer identifier, non-empty list
of items each having a name and a positive integer quantity), calling
add_order and then get_order_by_id with the same identifier returns a
record whose status is pending and whose identifier, items and
customer identifier are exactly the submitted values. -/
theorem C1_add_then_get_roundtrip
    (t : OrderTracker) (oid cid : String) (its : List PyVal)
    (hoid : oid ≠ "") (hcid : cid ≠ "") (hits : its ≠ [])
    (hitem : ∀ it ∈ its, ∃ es nm q, it = PyVal.dict es ∧
      assocGet es "name" = some nm ∧ assocGet es "quantity" = some (PyVal.int q) ∧ 0 < q)
    (habs : t.storage.get oid = Option.none) :
    ∃ r t₂,
      t.add_order (PyVal.str oid) (PyVal.list its) (PyVal.str cid) = (Except.ok r, t₂) ∧
      t₂.get_order_by_id (PyVal.str oid) = (Except.ok r, t₂) ∧
      pyDictGet r "status" = some (PyVal.str "pending") ∧
      pyDictGet r "order_id" = some (PyVal.str oid) ∧
      pyDictGet r "items" = some (PyVal.list its) ∧
      pyDictGet r "customer_id" = some (PyVal.str cid) := by
  have h3 : (!truthy (PyVal.list its) || !isList (PyVal.list its)) = false := by
    simp [truthy, isList, hits]
  have hc : checkItems (listElems (PyVal.list its)) = Option.none := by
    rw [show listElems (PyVal.list its) = its from rfl, checkItems_eq_none_iff]
    intro it hit
    obtain ⟨es, nm, q, rfl, hnm, hq, hqpos⟩ := hitem it hit
    simp [specItemOk, hnm, hq, isPyInt, pyIntVal, hqpos]
  have hadd := add_order_of_checks_pass hoid hcid h3 hc habs
  refine ⟨_, _, hadd, ?_, rfl, rfl, rfl, rfl⟩
  rw [get_order_by_id_eq _ hoid]
  simp only [InMemoryStorage.get, InMemoryStorage.save, assocGet_assocSet_self]

/-- Claim C4: for every state containing an order with a given
identifier, calling add_order with that identifier fails with a
validation error regardless of the items and customer identifier
arguments, and the existing stored record is not overwritten. -/
theorem C4_duplicate_add_rejected
    (t : OrderTracker) (oid : String) (r : PyVal)
    (hstored : t.storage.get oid = some r) (items customer_id : PyVal) :
    ∃ e, t.add_order (PyVal.str oid) items customer_id = (Except.error e, t) ∧
      Err.isValidation e = true ∧ t.storage.get oid = some r := by
  by_cases h1 : (!truthy (PyVal.str oid) || !isStr (PyVal.str oid)) = true
  · exact ⟨_, add_order_err1 t items customer_id h1, rfl, hstored⟩
  · rw [Bool.not_eq_true] at h1
    by_cases h2 : (!truthy customer_id || !isStr customer_id) = true
    · exact ⟨_, add_order_err2 t items h1 h2, rfl, hstored⟩
    · rw [Bool.not_eq_true] at h2
      by_cases h3 : (!truthy items || !isList items) = true
      · exact ⟨_, add_order_err3 t h1 h2 h3, rfl, hstored⟩
      · rw [Bool.not_eq_true] at h3
        cases hc : checkItems (listElems items) with
        | some e =>
          refine ⟨e, add_order_errItem t h1 h2 h3 hc, ?_, hstored⟩
          rcases checkItems_mem hc with rfl | rfl | rfl <;> rfl
        | none =>
          have h4 : t.storage.existsKey (strVal (PyVal.str oid)) = true := by
            have hg : assocGet t.storage._orders oid = some r := hstored
            simp [InMemoryStorage.existsKey, strVal, hg]
          exact ⟨_, add_order_errDup t h1 h2 h3 hc h4, rfl, hstored⟩

/-- Claim C6: for every state and every string identifier,
get_order_by_id fails with a validation error if and only if the
identifier is empty; fails with a not-found error if and only if it is
non-empty and absent from storage; otherwise returns the stored
record; and the underlying storage get is total, returning the record
or the absent-value sentinel. -/
theorem C6_get_order_by_id_cases (t : OrderTracker) (oid : String) :
    (t.get_order_by_id (PyVal.str oid)).2 = t ∧
    ((∃ e, (t.get_order_by_id (PyVal.str oid)).1 = Except.error e ∧
        Err.isValidation e = true) ↔ oid = "") ∧
    ((∃ k, (t.get_order_by_id (PyVal.str oid)).1 = Except.error (Err.notFound k)) ↔
      oid ≠ "" ∧ t.storage.get oid = Option.none) ∧
    (∀ r, oid ≠ "" → t.storage.get oid = some r →
      (t.get_order_by_id (PyVal.str oid)).1 = Except.ok r) ∧
    (∀ (s : InMemoryStorage) (k : String),
      s.get k = Option.none ∨ ∃ r, s.get k = some r) := by
  have htotal : ∀ (s : InMemoryStorage) (k : String),
      s.get k = Option.none ∨ ∃ r, s.get k = some r := by
    intro s k
    cases h : s.get k
    · exact Or.inl rfl
    · exact Or.inr ⟨_, rfl⟩
  by_cases hoid : oid = ""
  · subst hoid
    rw [get_order_by_id_empty]
    refine ⟨rfl, ?_, ?_, ?_, htotal⟩
    · exact ⟨fun _ => rfl, fun _ => ⟨Err.valOrderIdEmpty, rfl, rfl⟩⟩
    · constructor
      · rintro ⟨k, hk⟩
        simp at hk
      · rintro ⟨h, -⟩
        exact absurd rfl h
    · intro r h _
      exact absurd rfl h
  · cases hget : t.storage.get oid with
    | none =>
      have hres : t.get_order_by_id (PyVal.str oid) = (Except.error (Err.notFound oid), t) := by
        rw [get_order_by_id_eq t hoid, hget]
      rw [hres]
      refine ⟨rfl, ?_, ?_, ?_, htotal⟩
      · constructor
        · rintro ⟨e, he, hv⟩
          have he₂ : Err.notFound oid = e := by simpa using he
          rw [← he₂] at hv
          simp [Err.isValidation] at hv
        · intro h
          exact absurd h hoid
      · exact ⟨fun _ => ⟨hoid, rfl⟩, fun _ => ⟨oid, rfl⟩⟩
      · intro r _ hr
        exact Option.noConfusion hr
    | some r₀ =>
      have hres : t.get_order_by_id (PyVal.str oid) = (Except.ok r₀, t) := by
        rw [get_order_by_id_eq t hoid, hget]
      rw [hres]
      refine ⟨rfl, ?_, ?_, ?_, htotal⟩
      · constructor
        · rintro ⟨e, he, -⟩
          simp at he
        · intro h
          exact absurd h hoid
      · constructor
        · rintro ⟨k, hk⟩
          simp at hk
        · rintro ⟨-, hnone⟩
          exact Option.noConfusion hnone
      · intro r _ hr
        injection hr with hr
        rw [hr]

/-- Claim C2: for every reachable state and every string identifier
and new status, update_order_status fails with a validation error
(leaving every stored record unchanged) if the identifier is empty or
the new status is outside the fixed vocabulary; fails with a
not-found error if no order with that identifier exists; otherwise
sets the stored order status to the new status and returns the
updated record. -/
theorem C2_update_order_status_cases (t : OrderTracker) (oid st : String)
    (hreach : Reachable t) :
    ((oid = "" ∨ st ∉ VALID_STATUSES) →
      ∃ e, t.update_order_status (PyVal.str oid) (PyVal.str st) = (Except.error e, t) ∧
        Err.isValidation e = true) ∧
    (oid ≠ "" → st ∈ VALID_STATUSES → t.storage.get oid = Option.none →
      t.update_order_status (PyVal.str oid) (PyVal.str st) =
        (Except.error (Err.notFound oid), t)) ∧
    (∀ r, oid ≠ "" → st ∈ VALID_STATUSES → t.storage.get oid = some r →
      ∃ r₂, t.update_order_status (PyVal.str oid) (PyVal.str st) =
          (Except.ok r₂, ⟨t.storage.save oid r₂⟩) ∧
        pyDictGet r₂ "status" = some (PyVal.str st) ∧
        sameOffStatus r r₂ ∧
        (⟨t.storage.save oid r₂⟩ : OrderTracker).storage.get oid = some r₂) := by
  refine ⟨?_, ?_, ?_⟩
  · intro hbad
    by_cases hoid : oid = ""
    · subst hoid
      exact ⟨_, update_empty t _, rfl⟩
    · have hst : st ∉ VALID_STATUSES := hbad.resolve_left hoid
      have hinv : inValidStatuses (PyVal.str st) = false := by
        simp [inValidStatuses, hst]
      rw [update_eq t hoid, hinv]
      exact ⟨Err.valInvalidStatus, rfl, rfl⟩
  · intro hoid hst hnone
    have hinv : inValidStatuses (PyVal.str st) = true := by
      simp [inValidStatuses, hst]
    rw [update_eq t hoid, hinv, hnone]
    rfl
  · intro r hoid hst hsome
    have hinv : inValidStatuses (PyVal.str st) = true := by
      simp [inValidStatuses, hst]
    rw [update_eq t hoid, hinv, hsome]
    refine ⟨pyDictSet r "status" (PyVal.str st), rfl, ?_, sameOffStatus_setStatus r _, ?_⟩
    · obtain ⟨es, rfl, -, -, -⟩ :=
        ((reachable_storeInv hreach).2 oid r (assocGet_mem hsome)).2
      simp [pyDictSet, pyDictGet, assocGet_assocSet_self]
    · exact assocGet_assocSet_self t.storage._orders oid _

/-- Claim C5: for every state, list_orders_by_status fails with a
validation error when the status is outside the fixed vocabulary,
and otherwise returns exactly the stored orders whose status equals
the given status (every returned order matches, every stored matching
order is returned, and the result is empty when nothing matches). -/
theorem C5_list_orders_by_status (t : OrderTracker) (status : String) :
    (status ∉ VALID_STATUSES →
      t.list_orders_by_status (PyVal.str status) = (Except.error Err.valInvalidStatus, t) ∧
      Err.isValidation Err.valInvalidStatus = true) ∧
    (status ∈ VALID_STATUSES →
      ∃ l, t.list_orders_by_status (PyVal.str status) = (Except.ok l, t) ∧
        (∀ o, o ∈ l ↔ o ∈ t.storage.get_all ∧ statusMatches o status = true) ∧
        ((∀ o ∈ t.storage.get_all, statusMatches o status = false) → l = [])) := by
  constructor
  · intro hst
    have hinv : inValidStatuses (PyVal.str status) = false := by
      simp [inValidStatuses, hst]
    constructor
    · simp [OrderTracker.list_orders_by_status, hinv]
    · rfl
  · intro hst
    have hinv : inValidStatuses (PyVal.str status) = true := by
      simp [inValidStatuses, hst]
    refine ⟨t.storage.get_all.filter fun o => statusMatches o status, ?_, ?_, ?_⟩
    · simp [OrderTracker.list_orders_by_status, hinv, strVal]
    · intro o
      simp [List.mem_filter]
    · intro hnone
      rw [List.filter_eq_nil_iff]
      intro o ho
      simp [hnone o ho]

/-- Claim C3: add_order performs its checks in exactly the order
identifier, customer identifier, items, duplicate identifier, and on
the first violated rule (computed by specFirstViolation, written from
the words of the claim) fails with a validation error identifying
that rule and leaves the state unchanged, without reporting any later
violation; when no rule is violated it succeeds. -/
theorem C3_add_order_fail_fast (t : OrderTracker) (order_id items customer_id : PyVal) :
    (specFirstViolation t order_id items customer_id = some 1 →
      t.add_order order_id items customer_id = (Except.error Err.valOrderIdRequired, t)) ∧
    (specFirstViolation t order_id items customer_id = some 2 →
      t.add_order order_id items customer_id = (Except.error Err.valCustomerIdRequired, t)) ∧
    (specFirstViolation t order_id items customer_id = some 3 →
      ∃ e, t.add_order order_id items customer_id = (Except.error e, t) ∧
        (e = Err.valItemsList ∨ e = Err.valItemDict ∨ e = Err.valItemFields ∨
          e = Err.valItemQuantity)) ∧
    (specFirstViolation t order_id items customer_id = some 4 →
      t.add_order order_id items customer_id =
        (Except.error (Err.valDuplicate (strVal order_id)), t)) ∧
    (specFirstViolation t order_id items customer_id = Option.none →
      ∃ r t₂, t.add_order order_id items customer_id = (Except.ok r, t₂)) := by
  by_cases b1 : specNonEmptyString order_id = true
  case neg =>
    rw [Bool.not_eq_true] at b1
    have hfv : specFirstViolation t order_id items customer_id = some 1 := by
      simp [specFirstViolation, b1]
    have hcond1 : (!truthy order_id || !isStr order_id) = true := by
      rw [← Bool.not_and, ← specNonEmptyString_eq, b1]
      rfl
    refine ⟨fun _ => add_order_err1 t items customer_id hcond1, fun h => ?_, fun h => ?_,
      fun h => ?_, fun h => ?_⟩ <;> rw [hfv] at h <;> simp at h
  case pos =>
    have hcond1 : (!truthy order_id || !isStr order_id) = false := by
      rw [← Bool.not_and, ← specNonEmptyString_eq, b1]
      rfl
    by_cases b2 : specNonEmptyString customer_id = true
    case neg =>
      rw [Bool.not_eq_true] at b2
      have hfv : specFirstViolation t order_id items customer_id = some 2 := by
        simp [specFirstViolation, b1, b2]
      have hcond2 : (!truthy customer_id || !isStr customer_id) = true := by
        rw [← Bool.not_and, ← specNonEmptyString_eq, b2]
        rfl
      refine ⟨fun h => ?_, fun _ => add_order_err2 t items hcond1 hcond2, fun h => ?_,
        fun h => ?_, fun h => ?_⟩ <;> rw [hfv] at h <;> simp at h
    case pos =>
      have hcond2 : (!truthy customer_id || !isStr customer_id) = false := by
        rw [← Bool.not_and, ← specNonEmptyString_eq, b2]
        rfl
      by_cases b3 : specItemsOk items = true
      case neg =>
        rw [Bool.not_eq_true] at b3
        have hfv : specFirstViolation t order_id items customer_id = some 3 := by
          simp [specFirstViolation, b1, b2, b3]
        have hmain : ∃ e, t.add_order order_id items customer_id = (Except.error e, t) ∧
            (e = Err.valItemsList ∨ e = Err.valItemDict ∨ e = Err.valItemFields ∨
              e = Err.valItemQuantity) := by
          by_cases hcond3 : (!truthy items || !isList items) = true
          · exact ⟨Err.valItemsList, add_order_err3 t hcond1 hcond2 hcond3, Or.inl rfl⟩
          · rw [Bool.not_eq_true] at hcond3
            have hti : (truthy items && isList items) = true := by
              rw [← Bool.not_and] at hcond3
              cases hab : (truthy items && isList items)
              · rw [hab] at hcond3
                exact Bool.noConfusion hcond3
              · rfl
            cases hc : checkItems (listElems items) with
            | some e =>
              refine ⟨e, add_order_errItem t hcond1 hcond2 hcond3 hc, ?_⟩
              rcases checkItems_mem hc with rfl | rfl | rfl
              · exact Or.inr (Or.inl rfl)
              · exact Or.inr (Or.inr (Or.inl rfl))
              · exact Or.inr (Or.inr (Or.inr rfl))
            | none =>
              exfalso
              have : specItemsOk items = true := (specItemsOk_iff items).mpr ⟨hti, hc⟩
              rw [b3] at this
              exact Bool.noConfusion this
        refine ⟨fun h => ?_, fun h => ?_, fun _ => hmain, fun h => ?_, fun h => ?_⟩ <;>
          rw [hfv] at h <;> simp at h
      case pos =>
        obtain ⟨hti, hc⟩ := (specItemsOk_iff items).mp b3
        have hcond3 : (!truthy items || !isList items) = false := by
          rw [← Bool.not_and, hti]
          rfl
        by_cases b4 : t.storage.existsKey (strVal order_id) = true
        case pos =>
          have hfv : specFirstViolation t order_id items customer_id = some 4 := by
            simp [specFirstViolation, b1, b2, b3, b4]
          refine ⟨fun h => ?_, fun h => ?_, fun h => ?_,
            fun _ => add_order_errDup t hcond1 hcond2 hcond3 hc b4, fun h => ?_⟩ <;>
            rw [hfv] at h <;> simp at h
        case neg =>
          rw [Bool.not_eq_true] at b4
          have hfv : specFirstViolation t order_id items customer_id = Option.none := by
            simp [specFirstViolation, b1, b2, b3, b4]
          have hmain : ∃ r t₂,
              t.add_order order_id items customer_id = (Except.ok r, t₂) := by
            obtain ⟨oid, rfl, hoid⟩ := specNonEmptyString_elim b1
            obtain ⟨cid, rfl, hcid⟩ := specNonEmptyString_elim b2
            have habs : t.storage.get oid = Option.none := by
              have := (existsKey_false_iff t.storage (strVal (PyVal.str oid))).mp b4
              exact this
            exact ⟨_, _, add_order_of_checks_pass hoid hcid hcond3 hc habs⟩
          refine ⟨fun h => ?_, fun h => ?_, fun h => ?_, fun h => ?_, fun _ => hmain⟩ <;>
            rw [hfv] at h <;> simp at h

/-- Claim C7: in every state reachable from the empty store by tracker
operations, every stored order status is a member of the fixed
vocabulary, and every order created by add_order has initial status
pending. -/
theorem C7_status_vocabulary_invariant :
    (∀ t : OrderTracker, Reachable t → ∀ k r, (k, r) ∈ t.storage._orders →
      ∃ st, pyDictGet r "status" = some (PyVal.str st) ∧ st ∈ VALID_STATUSES) ∧
    (∀ (t : OrderTracker) (order_id items customer_id r : PyVal) (t₂ : OrderTracker),
      t.add_order order_id items customer_id = (Except.ok r, t₂) →
      pyDictGet r "status" = some (PyVal.str "pending")) := by
  constructor
  · intro t hreach k r hmem
    obtain ⟨-, es, rfl, -, -, st, hst, hstmem⟩ := (reachable_storeInv hreach).2 k r hmem
    exact ⟨st, hst, hstmem⟩
  · intro t order_id items customer_id r t₂ h
    obtain ⟨rfl, -, -⟩ := add_order_ok h
    rfl

/-- Claim C10: in every state reachable from the empty store, each
stored record sits under a key equal to its own order_id field, and
each stored record is a dict with exactly the four fields order_id,
items, customer_id and status. -/
theorem C10_key_and_field_invariant (t : OrderTracker) (hreach : Reachable t) :
    ∀ k r, (k, r) ∈ t.storage._orders →
      pyDictGet r "order_id" = some (PyVal.str k) ∧
      ∃ es, r = PyVal.dict es ∧
        es.map Prod.fst = ["order_id", "items", "customer_id", "status"] := by
  intro k r hmem
  obtain ⟨-, es, rfl, hkeys, hoid, -⟩ := (reachable_storeInv hreach).2 k r hmem
  exact ⟨hoid, es, rfl, hkeys⟩

/-- Claim C8: a successful update_order_status changes only the status
field of the targeted record (identifier, items and customer
identifier are preserved) and leaves every other stored record
intact; no other operation changes any field of an existing stored
record: add_order preserves existing records verbatim, the read-only
operations leave the state unchanged, and delete only removes whole
records. -/
theorem C8_only_status_mutable (t : OrderTracker) (hreach : Reachable t) :
    (∀ order_id new_status r₂ t₂,
      t.update_order_status order_id new_status = (Except.ok r₂, t₂) →
      ∃ r, t.storage.get (strVal order_id) = some r ∧
        sameOffStatus r r₂ ∧
        identityFields r₂ = identityFields r ∧
        t₂.storage.get (strVal order_id) = some r₂ ∧
        (∀ k r₃, k ≠ strVal order_id → t.storage.get k = some r₃ →
          t₂.storage.get k = some r₃)) ∧
    (∀ order_id items customer_id k r₃, t.storage.get k = some r₃ →
      ((t.add_order order_id items customer_id).2).storage.get k = some r₃) ∧
    (∀ order_id, (t.get_order_by_id order_id).2 = t) ∧
    (∀ status, (t.list_orders_by_status status).2 = t) ∧
    (∀ did k r₃, t.storage.get k = some r₃ →
      ((t.storage.delete did).2).get k = some r₃ ∨
        (k = did ∧ ((t.storage.delete did).2).get k = Option.none)) := by
  refine ⟨?_, ?_, ?_, ?_, ?_⟩
  · intro order_id new_status r₂ t₂ h
    obtain ⟨r, hget, hr₂, ht₂⟩ := update_ok h
    have hoff : sameOffStatus r r₂ := by
      rw [hr₂]
      exact sameOffStatus_setStatus r new_status
    refine ⟨r, hget, hoff, ?_, ?_, ?_⟩
    · simp only [identityFields]
      rw [hoff "order_id" (by decide), hoff "items" (by decide),
        hoff "customer_id" (by decide)]
    · rw [ht₂]
      exact assocGet_assocSet_self t.storage._orders (strVal order_id) r₂
    · intro k r₃ hk hg
      rw [ht₂]
      show assocGet (assocSet t.storage._orders (strVal order_id) r₂) k = some r₃
      rw [assocGet_assocSet_ne _ _ hk]
      exact hg
  · intro order_id items customer_id k r₃ hg
    rcases add_order_snd_cases t order_id items customer_id with
      he | ⟨oid, -, -, habs, hsucc⟩
    · rw [he]
      exact hg
    · rw [hsucc]
      by_cases hk : k = oid
      · subst hk
        rw [hg] at habs
        exact Option.noConfusion habs
      · show assocGet (assocSet t.storage._orders oid _) k = some r₃
        rw [assocGet_assocSet_ne _ _ hk]
        exact hg
  · intro order_id
    simp only [OrderTracker.get_order_by_id]
    split
    · rfl
    · cases t.storage.get (strVal order_id) <;> rfl
  · intro status
    simp only [OrderTracker.list_orders_by_status]
    split <;> rfl
  · intro did k r₃ hg
    by_cases hk : k = did
    · subst hk
      right
      refine ⟨rfl, ?_⟩
      show assocGet (assocPop t.storage._orders k).2 k = Option.none
      exact assocGet_assocPop_self (reachable_storeInv hreach).1
    · left
      show assocGet (assocPop t.storage._orders did).2 k = some r₃
      rw [assocGet_assocPop_ne _ hk]
      exact hg

/-- Claim C9: for every reachable state containing an order with a
given identifier, delete removes it and returns the removed record,
so that a subsequent get_order_by_id fails with a not-found error;
deleting an absent identifier returns the absent-value sentinel. -/
theorem C9_delete_then_get_not_found (t : OrderTracker) (hreach : Reachable t)
    (oid : String) :
    (∀ r, t.storage.get oid = some r →
      (t.storage.delete oid).1 = some r ∧
      ((t.storage.delete oid).2).get oid = Option.none ∧
      (OrderTracker.mk (t.storage.delete oid).2).get_order_by_id (PyVal.str oid) =
        (Except.error (Err.notFound oid), ⟨(t.storage.delete oid).2⟩)) ∧
    (t.storage.get oid = Option.none →
      t.storage.delete oid = (Option.none, t.storage)) := by
  constructor
  · intro r hr
    have hoid : oid ≠ "" := ((reachable_storeInv hreach).2 oid r (assocGet_mem hr)).1
    have hnone : ((t.storage.delete oid).2).get oid = Option.none := by
      show assocGet (assocPop t.storage._orders oid).2 oid = Option.none
      exact assocGet_assocPop_self (reachable_storeInv hreach).1
    refine ⟨?_, hnone, ?_⟩
    · show (assocPop t.storage._orders oid).1 = some r
      rw [assocPop_fst]
      exact hr
    · rw [get_order_by_id_eq _ hoid, hnone]
  · intro hnone
    have h := assocPop_absent (show assocGet t.storage._orders oid = Option.none from hnone)
    show ((assocPop t.storage._orders oid).1,
        (⟨(assocPop t.storage._orders oid).2⟩ : InMemoryStorage)) = (Option.none, t.storage)
    rw [h]

/-! Witnesses: each claim theorem applied at the concrete spec
scenario (order ORD001 with one Widget item for customer CUST001). -/

theorem reachable_tracker1 : Reachable tracker1 :=
  Reachable.add tracker0 (PyVal.str "ORD001") (PyVal.list [item1]) (PyVal.str "CUST001")
    Reachable.init

/-- Witness: the round-trip claim C1 evaluated on the spec scenario. -/
theorem C1_witness :
    ∃ r t₂,
      tracker0.add_order (PyVal.str "ORD001") (PyVal.list [item1]) (PyVal.str "CUST001") =
        (Except.ok r, t₂) ∧
      t₂.get_order_by_id (PyVal.str "ORD001") = (Except.ok r, t₂) ∧
      pyDictGet r "status" = some (PyVal.str "pending") ∧
      pyDictGet r "order_id" = some (PyVal.str "ORD001") ∧
      pyDictGet r "items" = some (PyVal.list [item1]) ∧
      pyDictGet r "customer_id" = some (PyVal.str "CUST001") :=
  C1_add_then_get_roundtrip tracker0 "ORD001" "CUST001" [item1]
    (by decide) (by decide) (List.cons_ne_nil item1 [])
    (fun it hit => by
      rw [List.mem_singleton] at hit
      subst hit
      exact ⟨[("name", PyVal.str "Widget"), ("quantity", PyVal.int 2)],
        PyVal.str "Widget", 2, rfl, rfl, rfl, by decide⟩)
    rfl

/-- Witness: claim C2 evaluated on updating ORD001 to shipped. -/
theorem C2_witness :
    ∃ r₂, tracker1.update_order_status (PyVal.str "ORD001") (PyVal.str "shipped") =
        (Except.ok r₂, ⟨tracker1.storage.save "ORD001" r₂⟩) ∧
      pyDictGet r₂ "status" = some (PyVal.str "shipped") ∧
      sameOffStatus rec1 r₂ ∧
      (OrderTracker.mk (tracker1.storage.save "ORD001" r₂)).storage.get "ORD001" =
        some r₂ :=
  (C2_update_order_status_cases tracker1 "ORD001" "shipped" reachable_tracker1).2.2
    rec1 (by decide) (by decide) rfl

/-- Witness: claim C3 evaluated at an empty identifier, the first
violated rule. -/
theorem C3_witness :
    tracker0.add_order (PyVal.str "") (PyVal.list [item1]) (PyVal.str "") =
      (Except.error Err.valOrderIdRequired, tracker0) :=
  (C3_add_order_fail_fast tracker0 (PyVal.str "") (PyVal.list [item1]) (PyVal.str "")).1 rfl

/-- Witness: claim C4 evaluated on re-adding ORD001. -/
theorem C4_witness :
    ∃ e, tracker1.add_order (PyVal.str "ORD001") (PyVal.list [item1])
        (PyVal.str "CUST002") = (Except.error e, tracker1) ∧
      Err.isValidation e = true ∧ tracker1.storage.get "ORD001" = some rec1 :=
  C4_duplicate_add_rejected tracker1 "ORD001" rec1 rfl (PyVal.list [item1])
    (PyVal.str "CUST002")

/-- Witness: claim C5 evaluated on filtering by shipped. -/
theorem C5_witness :
    ∃ l, tracker1.list_orders_by_status (PyVal.str "shipped") = (Except.ok l, tracker1) ∧
      (∀ o, o ∈ l ↔ o ∈ tracker1.storage.get_all ∧ statusMatches o "shipped" = true) ∧
      ((∀ o ∈ tracker1.storage.get_all, statusMatches o "shipped" = false) → l = []) :=
  (C5_list_orders_by_status tracker1 "shipped").2 (by decide)

/-- Witness: claim C6 evaluated on fetching the stored ORD001. -/
theorem C6_witness :
    (tracker1.get_order_by_id (PyVal.str "ORD001")).1 = Except.ok rec1 :=
  (C6_get_order_by_id_cases tracker1 "ORD001").2.2.2.1 rec1 (by decide) rfl

/-- Witness: claim C7 evaluated on the stored ORD001 record. -/
theorem C7_witness :
    ∃ st, pyDictGet rec1 "status" = some (PyVal.str st) ∧ st ∈ VALID_STATUSES :=
  C7_status_vocabulary_invariant.1 tracker1 reachable_tracker1 "ORD001" rec1
    (List.mem_singleton.mpr rfl)

/-- Witness: claim C8 evaluated on updating ORD001 to shipped. -/
theorem C8_witness :
    ∃ r, tracker1.storage.get (strVal (PyVal.str "ORD001")) = some r ∧
      sameOffStatus r rec1s ∧
      identityFields rec1s = identityFields r ∧
      (OrderTracker.mk (tracker1.storage.save "ORD001" rec1s)).storage.get
        (strVal (PyVal.str "ORD001")) = some rec1s ∧
      (∀ k r₃, k ≠ strVal (PyVal.str "ORD001") → tracker1.storage.get k = some r₃ →
        (OrderTracker.mk (tracker1.storage.save "ORD001" rec1s)).storage.get k =
          some r₃) :=
  (C8_only_status_mutable tracker1 reachable_tracker1).1 (PyVal.str "ORD001")
    (PyVal.str "shipped") rec1s ⟨tracker1.storage.save "ORD001" rec1s⟩ rfl

/-- Witness: claim C9 evaluated on deleting the stored ORD001. -/
theorem C9_witness :
    (tracker1.storage.delete "ORD001").1 = some rec1 ∧
    ((tracker1.storage.delete "ORD001").2).get "ORD001" = Option.none ∧
    (OrderTracker.mk (tracker1.storage.delete "ORD001").2).get_order_by_id
        (PyVal.str "ORD001") =
      (Except.error (Err.notFound "ORD001"), ⟨(tracker1.storage.delete "ORD001").2⟩) :=
  (C9_delete_then_get_not_found tracker1 reachable_tracker1 "ORD001").1 rec1 rfl

/-- Witness: claim C10 evaluated on the stored ORD001 record. -/
theorem C10_witness :
    pyDictGet rec1 "order_id" = some (PyVal.str "ORD001") ∧
    ∃ es, rec1 = PyVal.dict es ∧
      es.map Prod.fst = ["order_id", "items", "customer_id", "status"] :=
  C10_key_and_field_invariant tracker1 reachable_tracker1 "ORD001" rec1
    (List.mem_singleton.mpr rfl)
